import Mathlib

/-!
Verification development for the furnace-brain browser frontend.

The JavaScript sources are shallowly embedded: JS numbers are modelled as
rationals (the polled values and schema bounds are plain decimal JSON
numbers), absent (undefined) values as Option.none, and JSON null as an
inner Option layer where the code distinguishes the two.  Stateful
modules (the state poller of main.js, the requestAnimationFrame batching,
the settings-config draft store) are modelled as explicit state records
with pure step functions; observable actions (network requests, renderer
setter calls, status-line writes) are emitted as effect lists.
-/
namespace Furnace

/- Batteries marks the Rat arithmetic irreducible; restore kernel-style
reducibility inside this file so that concrete rational computations can
be settled by decide. -/
attribute [local semireducible] Rat.mul Rat.add Rat.sub Rat.inv Rat.ofScientific

/-! ## JS numeric primitives -/
/-- Math.round on rationals: round half toward positive infinity. -/
def mathRound (q : ℚ) : ℤ := ⌊q + 1/2⌋

/-- Number.EPSILON, used by roundTo in settings-config.js. -/
def jsEps : ℚ := 1 / 2 ^ 52

/-- roundTo(num, decimals) from settings-config.js: Number(num) with the
not-isFinite guard returning 0 is modelled by an Option argument (none for
NaN/Infinity); otherwise Math.round((n + Number.EPSILON) * 10^d) / 10^d. -/
def roundTo (num : Option ℚ) (decimals : ℕ) : ℚ :=
  match num with
  | none => 0
  | some n => (mathRound ((n + jsEps) * 10 ^ decimals) : ℚ) / 10 ^ decimals

/-- round1 from main.js applyState: v == null ? null : Math.round(v*10)/10. -/
def round1 (v : Option ℚ) : Option ℚ :=
  match v with
  | none => none
  | some q => some ((mathRound (q * 10) : ℚ) / 10)

/-- formatTemp from furnace-ui-utils.js: "--°C" for null, otherwise
the integer-rounded value followed by "°C". -/
def formatTemp (v : Option ℚ) : String :=
  match v with
  | none => "--°C"
  | some q => toString (mathRound q) ++ "°C"

/-! ## DeviceState: the polled JSON payload (main.js / GET /api/state/current) -/
/-- Sensor channels read by applyState; absent or null readings are none
(applyState treats undefined and null alike through round1 and the
mixer fallback, so one Option layer is faithful). -/
structure Sensors where
  boiler_temp : Option ℚ := none
  radiators_temp : Option ℚ := none
  mixer_temp : Option ℚ := none
  return_temp : Option ℚ := none
  hopper_temp : Option ℚ := none
  flue_gas_temp : Option ℚ := none
deriving DecidableEq

/-- Output channels read by applyState. -/
structure Outputs where
  pump_co_on : Option Bool := none
  pump_cwu_on : Option Bool := none
  feeder_on : Option Bool := none
  fan_power : Option ℚ := none
  power_percent : Option ℚ := none
deriving DecidableEq

/-- One polled snapshot; state.sensors and state.outputs may be absent
(the code defaults them to empty objects). -/
structure DeviceState where
  sensors : Option Sensors := none
  outputs : Option Outputs := none
  mode : Option String := none
  mode_display : Option String := none
  alarm_active : Bool := false
  alarm_message : Option String := none
deriving DecidableEq

/-- JS truthy-or for strings: a || b where null/undefined and "" are falsy. -/
def jsOrStr (a b : Option String) : Option String :=
  match a with
  | some s => if s = "" then b else some s
  | none => b

/-- modeDisplay computed in applyState:
state.mode_display || state.mode || "nieznany". -/
def modeDisplay (st : DeviceState) : String :=
  match jsOrStr st.mode_display st.mode with
  | some s => if s = "" then "nieznany" else s
  | none => "nieznany"

/-- alarmText computed in applyState: state.alarm_active ?
"ALARM: " + (state.alarm_message || "Nieznany błąd") : null. -/
def alarmText (st : DeviceState) : Option String :=
  if st.alarm_active then
    some ("ALARM: " ++ (match jsOrStr st.alarm_message none with
      | some m => m
      | none => "Nieznany błąd"))
  else none

/-! ## Prev cache and applyState (main.js) -/
/-- The prev cache of main.js.  Temperature entries start absent
(prev.temps = \x7b\x7d), so they are Option (Option ℚ): none = key absent
(undefined), some none = null was stored, some (some q) = a number was
stored.  JS undefined !== null, which the outer Option captures.
mode/power/alarm are initialised to null explicitly. -/
structure Prev where
  temps_boiler : Option (Option ℚ) := none
  temps_rads : Option (Option ℚ) := none
  temps_mixer : Option (Option ℚ) := none
  temps_auger : Option (Option ℚ) := none
  temps_exhaust : Option (Option ℚ) := none
  out_pump_co : Option Bool := none
  out_pump_cwu : Option Bool := none
  out_feeder : Option Bool := none
  out_fan : Option ℤ := none
  mode : Option String := none
  power : Option ℤ := none
  alarm : Option String := none
deriving DecidableEq

/-- One renderer setter invocation (the FurnaceUI callbacks of applyState),
carrying the value passed to the setter. -/
inductive Write
  | furnace (v : Option ℚ)
  | radiators (v : Option ℚ)
  | mixer (v : Option ℚ)
  | augerTemp (v : Option ℚ)
  | exhaust (v : Option ℚ)
  | pumpCo (b : Bool)
  | pumpCwu (b : Bool)
  | feeder (b : Bool)
  | fan (n : ℤ)
  | mode (s : String)
  | power (n : ℤ)
  | status (s : String)
deriving DecidableEq

/-- setIfChanged from main.js: update the bucket entry and call the setter
only when the stored value differs (JS !==) from the new value. -/
def setIfChanged {α : Type} [DecidableEq α] (stored : Option α) (value : α)
    (w : Write) : Option α × List Write :=
  if stored = some value then (stored, []) else (some value, [w])

/-- applyState from main.js: diff each tracked field against the prev cache
and emit a renderer write only for changed fields, in source order. -/
def applyState (p : Prev) (st : DeviceState) : Prev × List Write :=
  let sensors := st.sensors.getD {}
  let outputs := st.outputs.getD {}
  let vBoiler := round1 sensors.boiler_temp
  let vRads := round1 sensors.radiators_temp
  let mixerTemp := match sensors.mixer_temp with
    | some v => some v
    | none => sensors.return_temp
  let vMixer := round1 mixerTemp
  let vAuger := round1 sensors.hopper_temp
  let vExhaust := round1 sensors.flue_gas_temp
  let vPumpCo := outputs.pump_co_on.getD false
  let vPumpCwu := outputs.pump_cwu_on.getD false
  let vFeeder := outputs.feeder_on.getD false
  let vFan : ℤ := match outputs.fan_power with
    | none => 0
    | some q => mathRound q
  let vMode := modeDisplay st
  let vPower : ℤ := match outputs.power_percent with
    | some q => mathRound q
    | none => 0
  let vAlarm := alarmText st
  let rBoiler := setIfChanged p.temps_boiler vBoiler (Write.furnace vBoiler)
  let rRads := setIfChanged p.temps_rads vRads (Write.radiators vRads)
  let rMixer := setIfChanged p.temps_mixer vMixer (Write.mixer vMixer)
  let rAuger := setIfChanged p.temps_auger vAuger (Write.augerTemp vAuger)
  let rExhaust := setIfChanged p.temps_exhaust vExhaust (Write.exhaust vExhaust)
  let rPumpCo := setIfChanged p.out_pump_co vPumpCo (Write.pumpCo vPumpCo)
  let rPumpCwu := setIfChanged p.out_pump_cwu vPumpCwu (Write.pumpCwu vPumpCwu)
  let rFeeder := setIfChanged p.out_feeder vFeeder (Write.feeder vFeeder)
  let rFan := setIfChanged p.out_fan vFan (Write.fan vFan)
  let rMode := setIfChanged p.mode vMode (Write.mode vMode)
  let rPower := setIfChanged p.power vPower (Write.power vPower)
  let rAlarm : Option String × List Write :=
    if p.alarm = vAlarm then (p.alarm, [])
    else (vAlarm, match vAlarm with
      | some t => if t = "" then [] else [Write.status t]
      | none => [])
  ({ temps_boiler := rBoiler.1, temps_rads := rRads.1, temps_mixer := rMixer.1,
     temps_auger := rAuger.1, temps_exhaust := rExhaust.1,
     out_pump_co := rPumpCo.1, out_pump_cwu := rPumpCwu.1,
     out_feeder := rFeeder.1, out_fan := rFan.1,
     mode := rMode.1, power := rPower.1, alarm := rAlarm.1 },
   rBoiler.2 ++ rRads.2 ++ rMixer.2 ++ rAuger.2 ++ rExhaust.2 ++ rPumpCo.2
     ++ rPumpCwu.2 ++ rFeeder.2 ++ rFan.2 ++ rMode.2 ++ rPower.2 ++ rAlarm.2)

/-- First poll of the spec scenario: boiler_temp 58.34, pump_co_on false,
mode WORK. -/
def statePollA : DeviceState :=
  { sensors := some { boiler_temp := some 58.34 },
    outputs := some { pump_co_on := some false },
    mode := some "WORK" }

/-- Second poll with only boiler_temp changed to 58.36. -/
def statePollB : DeviceState :=
  { sensors := some { boiler_temp := some 58.36 },
    outputs := some { pump_co_on := some false },
    mode := some "WORK" }

/-- Second poll with boiler_temp 58.36 and pump_co_on flipped to true. -/
def statePollC : DeviceState :=
  { sensors := some { boiler_temp := some 58.36 },
    outputs := some { pump_co_on := some true },
    mode := some "WORK" }

/-- The initial prev cache of main.js: empty temps/outputs buckets and
null mode/power/alarm. -/
def prevInit : Prev := {}

/-- The prev cache after applying statePollA to the initial cache. -/
def prevAfterA : Prev :=
  { temps_boiler := some (some 58.3), temps_rads := some none,
    temps_mixer := some none, temps_auger := some none,
    temps_exhaust := some none, out_pump_co := some false,
    out_pump_cwu := some false, out_feeder := some false,
    out_fan := some 0, mode := some "WORK", power := some 0, alarm := none }

/-- The prev cache after applying statePollC on top of prevAfterA. -/
def prevAfterC : Prev :=
  { temps_boiler := some (some 58.4), temps_rads := some none,
    temps_mixer := some none, temps_auger := some none,
    temps_exhaust := some none, out_pump_co := some true,
    out_pump_cwu := some false, out_feeder := some false,
    out_fan := some 0, mode := some "WORK", power := some 0, alarm := none }

/-! ## The state poller of main.js (fetchState / startPolling / stopPolling)

The module-level mutable variables (timer, inFlight, controller, prev,
window.__pollerRunning, document.hidden) become a state record.  Network
requests and AbortController handles are identified by generation
counters; setTimeout handles by a second counter.  The async loop of
startPolling is split at its await point: loopAwaiting records that a
loop() invocation is suspended on an in-flight fetchState and will run
"timer = setTimeout(loop, ms)" when that fetch settles.  A fetchState
call whose guard trips (or that was invoked while another fetch is in
flight) resolves immediately, so its caller schedules the timeout at
once. -/
/-- Observable action of a poller step. -/
inductive Eff
  | abortCtl (g : ℕ)
  | request (g : ℕ)
  | applyUI (d : DeviceState)
  | statusMsg (isError : Bool)
deriving DecidableEq

/-- How an issued fetch settles: parsed 2xx payload, non-2xx status
(throw HTTP n), network failure, or cancellation via AbortController. -/
inductive FetchOutcome
  | success (d : DeviceState)
  | httpError (n : ℕ)
  | networkError
  | aborted
deriving DecidableEq

/-- The mutable module state of main.js plus the scheduler bookkeeping. -/
structure PollerWorld where
  inFlight : Bool := false
  controllerGen : Option ℕ := none
  nextGen : ℕ := 0
  outstanding : List ℕ := []
  abortedGens : List ℕ := []
  timerVar : Option ℕ := none
  pendingTimers : List ℕ := []
  nextTimer : ℕ := 0
  pollerRunning : Bool := false
  loopAwaiting : Bool := false
  hidden : Bool := false
deriving DecidableEq

/-- controller.abort() on the current controller, if any
(if (controller) controller.abort()). -/
def abortCurrent (w : PollerWorld) : PollerWorld × List Eff :=
  match w.controllerGen with
  | some g => ({ w with abortedGens := g :: w.abortedGens }, [Eff.abortCtl g])
  | none => (w, [])

/-- if (timer) \x7b clearTimeout(timer); timer = null; \x7d. -/
def clearTimer (w : PollerWorld) : PollerWorld :=
  match w.timerVar with
  | some h => { w with pendingTimers := w.pendingTimers.erase h, timerVar := none }
  | none => w

/-- timer = setTimeout(loop, ms): a fresh timeout handle is scheduled and
stored in the timer variable. -/
def scheduleTimer (w : PollerWorld) : PollerWorld :=
  { w with pendingTimers := w.nextTimer :: w.pendingTimers,
           timerVar := some w.nextTimer, nextTimer := w.nextTimer + 1 }

/-- The synchronous head of fetchState, up to the await on fetch: the
inFlight guard, abort of the previous controller, creation of a new
AbortController, and issue of the GET.  Returns whether a request was
issued (false when the guard tripped and fetchState returned at once). -/
def fetchStateStart (w : PollerWorld) : PollerWorld × Bool × List Eff :=
  if w.inFlight then (w, false, [])
  else
    let a := abortCurrent { w with inFlight := true }
    let g := a.1.nextGen
    ({ a.1 with controllerGen := some g, nextGen := g + 1,
                outstanding := g :: a.1.outstanding },
     true, a.2 ++ [Eff.request g])

/-- One invocation of loop(): await fetchState() then
timer = setTimeout(loop, ms).  If fetchState returned synchronously (guard
tripped) the timeout is scheduled at once; otherwise the loop suspends
until the fetch settles. -/
def loopRun (w : PollerWorld) : PollerWorld × List Eff :=
  let f := fetchStateStart w
  if f.2.1 then ({ f.1 with loopAwaiting := true }, f.2.2)
  else (scheduleTimer f.1, f.2.2)

/-- stopPolling(): clear the stored timer, abort the current controller,
reset window.__pollerRunning. -/
def stopPolling (w : PollerWorld) : PollerWorld × List Eff :=
  let a := abortCurrent (clearTimer w)
  ({ a.1 with pollerRunning := false }, a.2)

/-- startPolling(ms): guarded by window.__pollerRunning, sets it, calls
stopPolling (which resets it), then runs loop() immediately. -/
def startPolling (w : PollerWorld) : PollerWorld × List Eff :=
  if w.pollerRunning then (w, [])
  else
    let s := stopPolling { w with pollerRunning := true }
    let l := loopRun s.1
    (l.1, s.2 ++ l.2)

/-- Effects of the rest of the fetchState body once the awaited fetch
settles: on success updateUIFromState(data) then a success status; on a
network error or non-2xx an error status; on AbortError nothing
(err.name === "AbortError" is silently swallowed). -/
def settleEffs (o : FetchOutcome) : List Eff :=
  match o with
  | .success d => [Eff.applyUI d, Eff.statusMsg false]
  | .httpError _ => [Eff.statusMsg true]
  | .networkError => [Eff.statusMsg true]
  | .aborted => []

/-- Settlement of outstanding request g: the try/catch body runs, finally
clears inFlight, and the suspended loop() continuation (if any) schedules
the next timeout. -/
def settleStep (w : PollerWorld) (g : ℕ) (o : FetchOutcome) :
    PollerWorld × List Eff :=
  if g ∈ w.outstanding then
    let w1 := { w with outstanding := w.outstanding.erase g, inFlight := false }
    let w2 := if w1.loopAwaiting then
        { scheduleTimer w1 with loopAwaiting := false }
      else w1
    (w2, settleEffs o)
  else (w, [])

/-- External events driving the poller. -/
inductive PEvent
  | domLoaded
  | visHidden
  | visShown
  | timerFire (h : ℕ)
  | settle (g : ℕ) (o : FetchOutcome)

/-- One step of the poller world: DOMContentLoaded and the
visibilitychange handler call start/stopPolling; a due timeout handle
runs loop(); an outstanding request settles. -/
def pstep (w : PollerWorld) : PEvent → PollerWorld × List Eff
  | .domLoaded => startPolling w
  | .visHidden => stopPolling { w with hidden := true }
  | .visShown => startPolling { w with hidden := false }
  | .timerFire h =>
      if h ∈ w.pendingTimers then
        loopRun { w with pendingTimers := w.pendingTimers.erase h }
      else (w, [])
  | .settle g o => settleStep w g o

/-- The initial module state of main.js. -/
def pollerInit : PollerWorld := {}

/-- Run a sequence of events from the initial state. -/
def runTrace (tr : List PEvent) : PollerWorld :=
  tr.foldl (fun w e => (pstep w e).1) pollerInit

/-- Invariant tying the inFlight flag to the set of outstanding network
requests. -/
def PollInv (w : PollerWorld) : Prop :=
  w.outstanding.length ≤ 1 ∧ (w.inFlight = false → w.outstanding = [])

/-! ## updateUIFromState and the requestAnimationFrame boundary (main.js)

The module-level raf/queued variables become a state record; scheduled
counts the requestAnimationFrame callbacks currently pending so that
"at most one scheduled" is a provable invariant rather than a modelling
assumption. -/
/-- raf/queued state of main.js. -/
structure RafState where
  rafHandle : Bool := false
  scheduled : ℕ := 0
  queued : Option DeviceState := none
deriving DecidableEq

/-- updateUIFromState(state): store the snapshot in queued (overwriting
any previous one), and schedule a requestAnimationFrame callback only if
none is pending (if (raf) return). -/
def updateUIFromState (r : RafState) (s : DeviceState) : RafState :=
  let r1 := { r with queued := some s }
  if r1.rafHandle then r1
  else { r1 with rafHandle := true, scheduled := r1.scheduled + 1 }

/-- applyState invocation observed at the frame boundary. -/
inductive RafEff
  | applyCall (s : DeviceState)
deriving DecidableEq

/-- The requestAnimationFrame callback: raf = null; if (!queued) return;
applyState(queued); queued = null.  A frame with no scheduled callback
does nothing. -/
def frameFire (r : RafState) : RafState × List RafEff :=
  if r.scheduled = 0 then (r, [])
  else
    let r1 := { r with scheduled := r.scheduled - 1, rafHandle := false }
    match r1.queued with
    | none => (r1, [])
    | some q => ({ r1 with queued := none }, [RafEff.applyCall q])

/-- Events at the rendering boundary: a snapshot arrives from a poll, or
the browser fires the animation frame. -/
inductive RafEvent
  | upd (s : DeviceState)
  | frame

/-- One step: updateUIFromState never calls applyState synchronously, so
an upd event emits no effects. -/
def rafStep (r : RafState) : RafEvent → RafState × List RafEff
  | .upd s => (updateUIFromState r s, [])
  | .frame => frameFire r

/-- Run rendering-boundary events from the initial state (raf = null,
queued = null). -/
def runRaf (tr : List RafEvent) : RafState :=
  tr.foldl (fun r e => (rafStep r e).1) {}

/-- Several updateUIFromState calls in a row (snapshots arriving before
the frame fires). -/
def applyUpds (r : RafState) (l : List DeviceState) : RafState :=
  l.foldl updateUIFromState r

/-- Invariant tying the raf variable to the number of scheduled frame
callbacks. -/
def RafInv (r : RafState) : Prop :=
  r.scheduled ≤ 1 ∧ (r.rafHandle = true ↔ r.scheduled = 1)

/-! ## settings-config.js: schema-driven configuration engine

Draft values are JSON values (JVal); a key mapped to Option.none models a
key stored with the JS value undefined.  Module stores (configState,
schemaCache, panels) are association lists with JS-object update
semantics (replace in place, append if new). -/
/-- A JSON/JS value stored in a Draft. -/
inductive JVal
  | num (q : ℚ)
  | str (s : String)
  | bool (b : Bool)
  | null
deriving DecidableEq

/-- One schema field definition (display-only attributes such as label,
description and unit are not modelled — no claim depends on them).
dflt models def.default (default is a reserved-ish name in Lean);
precision is an integer to which Math.max(0, ...) applies. -/
structure FieldDef where
  key : String := ""
  type : String := ""
  dflt : Option JVal := none
  min : Option ℚ := none
  max : Option ℚ := none
  step : Option ℚ := none
  precision : Option ℤ := none
  options : Option (List String) := none
  choices : Option (List String) := none
deriving DecidableEq

/-- Number of digits after the decimal point in String(step), modelled
for steps with a finite decimal expansion (schema steps are plain decimal
JSON numbers): the least d with step * 10^d integral. -/
def stepDecimals (q : ℚ) : ℕ :=
  match (List.range 100).find? (fun d => (q * 10 ^ d).den = 1) with
  | some d => d
  | none => 0

/-- getNumberPrecision from settings-config.js: def.precision clamped to
at least 0 when it is a number, else derived from String(def.step), else
the fallback 2. -/
def getNumberPrecision (d : Option FieldDef) : ℕ :=
  match d with
  | none => 2
  | some dd =>
    match dd.precision with
    | some p => p.toNat
    | none =>
      match dd.step with
      | some s => stepDecimals s
      | none => 2

/-- Number(v) for a stored JS value; none is NaN.  Number of a
non-numeric string is NaN; numeric strings are outside the modelled wire
contract (number fields carry numbers). -/
def jsToNum (v : Option JVal) : Option ℚ :=
  match v with
  | none => none
  | some JVal.null => some 0
  | some (JVal.num q) => some q
  | some (JVal.bool b) => some (if b then 1 else 0)
  | some (JVal.str _) => none

/-- Number(v) || 0, as used by renderNumber. -/
def jsNum0 (v : Option JVal) : ℚ :=
  match jsToNum v with
  | some q => q
  | none => 0

/-- JS truthiness of a stored value (used by the bool widget coercion). -/
def jsTruthy (v : Option JVal) : Bool :=
  match v with
  | none => false
  | some JVal.null => false
  | some (JVal.num q) => decide (q ≠ 0)
  | some (JVal.str s) => decide (s ≠ "")
  | some (JVal.bool b) => b

/-- def.options || def.choices || null. -/
def jsOptions (d : FieldDef) : Option (List String) :=
  match d.options with
  | some l => some l
  | none => d.choices

/-- The value computed by renderField before widget construction: the
undefined/null server value is replaced by the declared default, else
(number) the declared min or 0, else (text with a non-empty options
list) the first option; a number field value is then rounded to the
field precision by roundTo. -/
def renderFieldInitValue (d : FieldDef) (rawValue : Option JVal) :
    Option JVal :=
  let value := rawValue
  let value :=
    if value = none ∨ value = some JVal.null then
      match d.dflt with
      | some dv => some dv
      | none =>
        if d.type = "number" then
          some (JVal.num (match d.min with | some m => m | none => 0))
        else if d.type = "text" then
          match jsOptions d with
          | some (o :: _) => some (JVal.str o)
          | some [] => value
          | none => value
        else value
    else value
  if d.type = "number" then
    some (JVal.num (roundTo (jsToNum value) (getNumberPrecision (some d))))
  else value

/-- The Draft entry configState[moduleId][key] right after renderField
returns: the number widget has run renderNumber once (Number(...) || 0
then roundTo again), the bool widget has coerced the entry with !!. -/
def renderFieldStoredValue (d : FieldDef) (rawValue : Option JVal) :
    Option JVal :=
  let v := renderFieldInitValue d rawValue
  if d.type = "number" then
    some (JVal.num (roundTo (some (jsNum0 v)) (getNumberPrecision (some d))))
  else if d.type = "bool" then some (JVal.bool (jsTruthy v))
  else v

/-- The step constant of the number widget: def.step when declared,
else Math.pow(10, -precision). -/
def stepVal (d : FieldDef) : ℚ :=
  match d.step with
  | some s => s
  | none => (10 : ℚ) ^ (-(getNumberPrecision (some d) : ℤ))

/-- One minus/plus button click of the number widget followed by the
renderNumber it triggers: current ± step, clamp below to min then above
to max when declared, roundTo the field precision; renderNumber then
reads the value back (Number(...) || 0, the identity on a stored
rational) and rounds it again before storing/displaying. -/
def clickStep (d : FieldDef) (plus : Bool) (stored : ℚ) : ℚ :=
  let precision := getNumberPrecision (some d)
  let current := stored
  let current := if plus then current + stepVal d else current - stepVal d
  let current := match d.min with
    | some m => if current < m then m else current
    | none => current
  let current := match d.max with
    | some mx => if current > mx then mx else current
    | none => current
  let current := roundTo (some current) precision
  roundTo (some current) precision

/-- The number field of the spec clamping scenario:
min 10, max 80, step 0.5 (precision 1, derived from the step). -/
def fieldClamp : FieldDef :=
  { key := "t", type := "number", min := some 10, max := some 80,
    step := some 0.5 }

/-- Repeated plus clicks on fieldClamp starting from the Draft value
79.8. -/
def plusIter : ℕ → ℚ
  | 0 => 79.8
  | n + 1 => clickStep fieldClamp true (plusIter n)

/-- A number field whose max (80) is below a server value (100):
renderField stores the rounded server value without clamping. -/
def fieldNoClamp : FieldDef :=
  { key := "t", type := "number", min := some 10, max := some 80 }

/-- A number field whose max (79.99) is not representable at the field
precision (1 decimal): clamping to max and then rounding overshoots. -/
def fieldMaxNotRepresentable : FieldDef :=
  { key := "t", type := "number", min := some 10, max := some 79.99,
    step := some 0.5, precision := some 1 }

/-- Number-field witness for the default-initialization claim:
default 63, precision 1. -/
def fieldWithDefault : FieldDef :=
  { key := "fan_power", type := "number", dflt := some (JVal.num 63),
    precision := some 1 }

/-- Number-field witness without default but with min. -/
def fieldWithMin : FieldDef :=
  { key := "p", type := "number", min := some 10, precision := some 1 }

/-- Text-field witness with options and no default. -/
def fieldTextOptions : FieldDef :=
  { key := "mode", type := "text",
    options := some ["OFF", "IGNITION", "WORK", "MANUAL"] }

/-- Text-field witness with a declared default. -/
def fieldTextDefault : FieldDef :=
  { key := "lang", type := "text", dflt := some (JVal.str "PL") }

/-! ### Module stores (configState / schemaCache / panels) -/
/-- Association-list lookup (JS object property read; none = undefined). -/
def lookupA {α : Type} : List (String × α) → String → Option α
  | [], _ => none
  | (k1, v) :: rest, k => if k1 = k then some v else lookupA rest k

/-- Association-list store (JS object property write: replace in place,
append if absent). -/
def upsertA {α : Type} : List (String × α) → String → α → List (String × α)
  | [], k, v => [(k, v)]
  | (k1, v1) :: rest, k, v =>
      if k1 = k then (k, v) :: rest else (k1, v1) :: upsertA rest k v

/-- A module schema: \x7b fields: [...] \x7d, possibly without fields. -/
structure Schema where
  fields : Option (List FieldDef) := none
deriving DecidableEq

/-- A module Draft (values of configState[moduleId]). -/
abbrev DraftMap := List (String × Option JVal)

/-- The rendered panel of one module: either the inline error text or the
list of rendered field widgets (key and type tag each). -/
inductive Panel
  | errorMsg (msg : String)
  | widgetList (ws : List (String × String))
deriving DecidableEq

/-- configState[moduleId] = \x7b ...values \x7d: a shallow copy of the
server values mapping. -/
def draftOfValues (values : List (String × JVal)) : DraftMap :=
  values.map (fun p => (p.1, some p.2))

/-- The Draft updates performed by renderModulePanel: one renderField per
schema field, in schema order, each storing its normalized value into
configState[moduleId][key]. -/
def renderModuleDraft (schema : Schema) (values : List (String × JVal))
    (draft0 : DraftMap) : DraftMap :=
  (schema.fields.getD []).foldl
    (fun dr f => upsertA dr f.key (renderFieldStoredValue f (lookupA values f.key)))
    draft0

/-- The panel contents renderModulePanel builds for a loaded module. -/
def panelOf (schema : Schema) : Panel :=
  Panel.widgetList ((schema.fields.getD []).map (fun f => (f.key, f.type)))

/-- The global mutable stores of settings-config.js (plus the rendered
panels). -/
structure CfgSt where
  schemaCache : List (String × Schema) := []
  configState : List (String × DraftMap) := []
  panels : List (String × Panel) := []
deriving DecidableEq

/-- Result of the parallel schema+values fetch for one module: both
succeed, or the Promise.all rejects with an error message. -/
inductive LoadResult
  | ok (schema : Schema) (values : List (String × JVal))
  | err (msg : String)

/-- One iteration of the initConfigUI load loop: on success
loadModuleSchemaAndValues caches the schema, copies the values into the
Draft and renders the panel (renderField storing each field value); on
failure the catch block renders an inline error into that module panel
only. -/
def loadModule (st : CfgSt) (mid : String) (r : LoadResult) : CfgSt :=
  match r with
  | .ok schema values =>
    let st1 := { st with
      schemaCache := upsertA st.schemaCache mid schema,
      configState := upsertA st.configState mid (draftOfValues values) }
    let draft := (lookupA st1.configState mid).getD []
    { st1 with
      configState := upsertA st1.configState mid
        (renderModuleDraft schema values draft),
      panels := upsertA st1.panels mid (panelOf schema) }
  | .err m => { st with panels := upsertA st.panels mid (Panel.errorMsg m) }

/-- The for-loop of initConfigUI over the module list: each module load
runs inside try/catch, so every load executes regardless of earlier
failures. -/
def initLoads (st : CfgSt) (mods : List String)
    (res : String → LoadResult) : CfgSt :=
  mods.foldl (fun s mid => loadModule s mid (res mid)) st

/-- Observable steps of saveModuleConfig, in order. -/
inductive SaveEff
  | btnDisabled
  | statusSaving
  | putRequest (body : DraftMap)
  | statusSaved
  | rerender (schema : Schema) (values : List (String × JVal))
  | statusSaveError (msg : String)
  | btnEnabled
deriving DecidableEq

/-- How the PUT settles. -/
inductive SaveOutcome
  | ok (saved : List (String × JVal))
  | fail (msg : String)

/-- saveModuleConfig from settings-config.js: disable the button, PUT the
whole module Draft, on success replace the Draft with the returned
mapping and re-render the panel from it (when the schema is cached), on
failure leave all state untouched and show an error status; the finally
block re-enables the button. -/
def saveModuleConfig (st : CfgSt) (mid : String) (outcome : SaveOutcome) :
    CfgSt × List SaveEff :=
  let body := (lookupA st.configState mid).getD []
  let pre := [SaveEff.btnDisabled, SaveEff.statusSaving, SaveEff.putRequest body]
  match outcome with
  | .ok saved =>
    let st1 := { st with
      configState := upsertA st.configState mid (draftOfValues saved) }
    match lookupA st1.schemaCache mid with
    | some schema =>
      let draft := (lookupA st1.configState mid).getD []
      ({ st1 with
         configState := upsertA st1.configState mid
           (renderModuleDraft schema saved draft),
         panels := upsertA st1.panels mid (panelOf schema) },
       pre ++ [SaveEff.statusSaved, SaveEff.rerender schema saved,
         SaveEff.btnEnabled])
    | none => (st1, pre ++ [SaveEff.statusSaved, SaveEff.btnEnabled])
  | .fail m => (st, pre ++ [SaveEff.statusSaveError m, SaveEff.btnEnabled])

/-- Schema of the witness module A. -/
def schemaWitnessA : Schema :=
  { fields := some [fieldTextOptions] }

/-- Server values of the witness module A. -/
def valuesWitnessA : List (String × JVal) := [("mode", JVal.str "WORK")]

/-- Load results of the isolation witness: module A loads, module B
fails. -/
def loadResWitness (mid : String) : LoadResult :=
  if mid = "A" then LoadResult.ok schemaWitnessA valuesWitnessA
  else LoadResult.err "HTTP 500"

/-- Store of the save witness: module m1 loaded with one number field. -/
def saveWitnessSt : CfgSt :=
  { schemaCache := [("m1", schemaWitnessA)],
    configState := [("m1", [("fan_power", some (JVal.num 63))])],
    panels := [("m1", panelOf schemaWitnessA)] }

/-- Server reply of the save witness. -/
def saveWitnessSaved : List (String × JVal) := [("fan_power", JVal.num 63)]

/-! ## Theorems -/

theorem setIfChanged_fst {α : Type} [DecidableEq α] (stored : Option α)
    (value : α) (w : Write) : (setIfChanged stored value w).1 = some value := by
  unfold setIfChanged
  split
  · next h => exact h
  · rfl

theorem setIfChanged_same {α : Type} [DecidableEq α] (value : α) (w : Write) :
    setIfChanged (some value) value w = (some value, []) := by
  simp [setIfChanged]

theorem ite_self_snd {α : Type} [DecidableEq α] (a v : α) :
    (if a = v then a else v) = v := by
  split
  · next h => exact h
  · rfl

theorem alarm_pair_fst (a v : Option String) (ws : List Write) :
    (if a = v then (a, ([] : List Write)) else (v, ws)).1 = v := by
  split
  · next h => exact h
  · rfl

/-- C4: applying the same DeviceState twice: the second call produces no
renderer writes and leaves the prev cache unchanged, because each setter
is routed through setIfChanged against the cached comparable value, and
the alarm status line is only written when the alarm text changes. -/
theorem applyState_idempotent (p : Prev) (st : DeviceState) :
    applyState (applyState p st).1 st = ((applyState p st).1, []) := by
  simp only [applyState, setIfChanged_fst, setIfChanged_same, ite_self_snd,
    alarm_pair_fst]
  simp

/-! ## Concrete poll scenario (C6): boiler 58.34 then 58.36, pump flip -/
theorem mathRound_of_bounds (q : ℚ) (z : ℤ) (h1 : (z : ℚ) ≤ q + 1/2)
    (h2 : q + 1/2 < z + 1) : mathRound q = z := by
  rw [mathRound]
  exact Int.floor_eq_iff.mpr ⟨h1, h2⟩

theorem mathRound_5834x10 : mathRound ((58.34 : ℚ) * 10) = 583 :=
  mathRound_of_bounds _ _ (by norm_num) (by norm_num)

theorem mathRound_5836x10 : mathRound ((58.36 : ℚ) * 10) = 584 :=
  mathRound_of_bounds _ _ (by norm_num) (by norm_num)

theorem mathRound_583d : mathRound (58.3 : ℚ) = 58 :=
  mathRound_of_bounds _ _ (by norm_num) (by norm_num)

theorem mathRound_584d : mathRound (58.4 : ℚ) = 58 :=
  mathRound_of_bounds _ _ (by norm_num) (by norm_num)

theorem round1_5834 : round1 (some (58.34 : ℚ)) = some 58.3 := by
  simp only [round1, mathRound_5834x10]
  norm_num

theorem round1_5836 : round1 (some (58.36 : ℚ)) = some 58.4 := by
  simp only [round1, mathRound_5836x10]
  norm_num

theorem formatTemp_583 : formatTemp (some (58.3 : ℚ)) = "58°C" := by
  simp only [formatTemp, mathRound_583d]
  rfl

theorem formatTemp_584 : formatTemp (some (58.4 : ℚ)) = "58°C" := by
  simp only [formatTemp, mathRound_584d]
  rfl

theorem applyState_pollA :
    applyState prevInit statePollA =
      (prevAfterA,
       [Write.furnace (some 58.3), Write.radiators none, Write.mixer none,
        Write.augerTemp none, Write.exhaust none, Write.pumpCo false,
        Write.pumpCwu false, Write.feeder false, Write.fan 0,
        Write.mode "WORK", Write.power 0]) := by
  simp [applyState, statePollA, prevInit, prevAfterA, setIfChanged, round1,
    modeDisplay, alarmText, jsOrStr, mathRound_5834x10]
  norm_num

theorem applyState_pollB :
    applyState prevAfterA statePollB =
      ({ prevAfterA with temps_boiler := some (some 58.4) },
       [Write.furnace (some 58.4)]) := by
  simp [applyState, statePollB, prevAfterA, setIfChanged, round1,
    modeDisplay, alarmText, jsOrStr, mathRound_5836x10]
  norm_num

theorem applyState_pollC :
    applyState prevAfterA statePollC =
      (prevAfterC,
       [Write.furnace (some 58.4), Write.pumpCo true]) := by
  simp [applyState, statePollC, prevAfterA, prevAfterC, setIfChanged, round1,
    modeDisplay, alarmText, jsOrStr, mathRound_5836x10]
  norm_num

/-- C6 counterexample: after applying the 58.34 poll, a second poll with
boiler_temp 58.36 DOES redraw the boiler-temperature field (the setter is
invoked), because the comparable value is rounded to 0.1 °C (58.3 vs
58.4), not to the integer display precision — even though the displayed
text "58°C" is unchanged.  This refutes the claim that the second poll
triggers no redraw of that field. -/
theorem boiler_second_poll_redraws_cex :
    (applyState (applyState prevInit statePollA).1 statePollB).2
      = [Write.furnace (some 58.4)] ∧
    formatTemp (some 58.4) = "58°C" ∧
    formatTemp (round1 (some 58.34)) = "58°C" := by
  rw [applyState_pollA]
  rw [round1_5834]
  exact ⟨by rw [applyState_pollB], formatTemp_584, formatTemp_583⟩

/-- C6 amended: the first poll shows "58°C" on the boiler display and the
pump off; a second poll with 58.36 has a different 0.1-°C comparable value
(58.4 vs 58.3) and therefore does redraw the boiler-temperature field
(its text stays "58°C"), and redraws the pump indicator when pump_co_on
flips to true. -/
theorem boiler_poll_scenario_amended :
    Write.furnace (some 58.3) ∈ (applyState prevInit statePollA).2 ∧
    Write.pumpCo false ∈ (applyState prevInit statePollA).2 ∧
    formatTemp (some 58.3) = "58°C" ∧
    round1 (some 58.34) = some 58.3 ∧
    (applyState (applyState prevInit statePollA).1 statePollC).2
      = [Write.furnace (some 58.4), Write.pumpCo true] ∧
    formatTemp (some 58.4) = "58°C" := by
  rw [applyState_pollA]
  refine ⟨by simp, by simp, formatTemp_583, round1_5834, ?_, formatTemp_584⟩
  rw [applyState_pollC]

theorem abortCurrent_outstanding (w : PollerWorld) :
    (abortCurrent w).1.outstanding = w.outstanding := by
  unfold abortCurrent
  cases w.controllerGen <;> rfl

theorem abortCurrent_inFlight (w : PollerWorld) :
    (abortCurrent w).1.inFlight = w.inFlight := by
  unfold abortCurrent
  cases w.controllerGen <;> rfl

theorem clearTimer_outstanding (w : PollerWorld) :
    (clearTimer w).outstanding = w.outstanding := by
  unfold clearTimer
  cases w.timerVar <;> rfl

theorem clearTimer_inFlight (w : PollerWorld) :
    (clearTimer w).inFlight = w.inFlight := by
  unfold clearTimer
  cases w.timerVar <;> rfl

theorem PollInv_of_eq (w w' : PollerWorld)
    (ho : w'.outstanding = w.outstanding) (hf : w'.inFlight = w.inFlight)
    (h : PollInv w) : PollInv w' := by
  rw [PollInv, ho, hf]
  exact h

theorem stopPolling_outstanding (w : PollerWorld) :
    (stopPolling w).1.outstanding = w.outstanding := by
  unfold stopPolling
  simp [abortCurrent_outstanding, clearTimer_outstanding]

theorem stopPolling_inFlight (w : PollerWorld) :
    (stopPolling w).1.inFlight = w.inFlight := by
  unfold stopPolling
  simp [abortCurrent_inFlight, clearTimer_inFlight]

theorem stopPolling_PollInv (w : PollerWorld) (h : PollInv w) :
    PollInv (stopPolling w).1 :=
  PollInv_of_eq w _ (stopPolling_outstanding w) (stopPolling_inFlight w) h

theorem loopRun_PollInv (w : PollerWorld) (h : PollInv w) :
    PollInv (loopRun w).1 := by
  unfold PollInv at h ⊢
  unfold loopRun fetchStateStart
  by_cases hf : w.inFlight
  · simp [hf, scheduleTimer]
    exact h.1
  · simp only [Bool.not_eq_true] at hf
    have hout : w.outstanding = [] := h.2 hf
    simp [hf, scheduleTimer, abortCurrent_outstanding, abortCurrent_inFlight,
      hout]

theorem mem_length_le_one (l : List ℕ) (g : ℕ) (hlen : l.length ≤ 1)
    (hmem : g ∈ l) : l = [g] := by
  match l with
  | [] => cases hmem
  | [a] =>
    simp at hmem
    simp [hmem]
  | a :: b :: rest => simp at hlen

theorem settleStep_PollInv (w : PollerWorld) (g : ℕ) (o : FetchOutcome)
    (h : PollInv w) : PollInv (settleStep w g o).1 := by
  unfold PollInv at h ⊢
  unfold settleStep
  by_cases hg : g ∈ w.outstanding
  · have heq : w.outstanding = [g] := mem_length_le_one _ _ h.1 hg
    by_cases hl : w.loopAwaiting = true <;>
      simp [hg, hl, heq, scheduleTimer]
  · simp [hg]
    exact h

theorem startPolling_PollInv (w : PollerWorld) (h : PollInv w) :
    PollInv (startPolling w).1 := by
  unfold startPolling
  by_cases hr : w.pollerRunning
  · simp [hr]
    exact h
  · simp [hr]
    apply loopRun_PollInv
    apply stopPolling_PollInv
    exact h

theorem pstep_PollInv (w : PollerWorld) (e : PEvent) (h : PollInv w) :
    PollInv (pstep w e).1 := by
  cases e with
  | domLoaded => exact startPolling_PollInv w h
  | visHidden => exact stopPolling_PollInv _ h
  | visShown => exact startPolling_PollInv _ h
  | timerFire hd =>
      unfold pstep
      by_cases hm : hd ∈ w.pendingTimers
      · simp only [hm, if_true]
        exact loopRun_PollInv _ h
      · simp [hm]
        exact h
  | settle g o => exact settleStep_PollInv w g o h

theorem runTrace_PollInv (tr : List PEvent) : PollInv (runTrace tr) := by
  have hstep : ∀ (l : List PEvent) (w : PollerWorld), PollInv w →
      PollInv (l.foldl (fun w e => (pstep w e).1) w) := by
    intro l
    induction l with
    | nil => intro w h; exact h
    | cons e rest ih =>
        intro w h
        exact ih _ (pstep_PollInv w e h)
  exact hstep tr pollerInit ⟨by simp [pollerInit], fun _ => rfl⟩

/-- C1: the inFlight guard makes fetchState return at once, issuing no
request, whenever a previous invocation has not completed; along any
event trace at most one network request is outstanding; and in the
concrete two-ticks-before-one-round-trip scenario (a second poll tick
arriving while the first request is still in flight) exactly one request
is outstanding and the second tick issues none. -/
theorem fetchState_at_most_one_in_flight :
    (∀ w : PollerWorld, w.inFlight = true → fetchStateStart w = (w, false, [])) ∧
    (∀ tr : List PEvent, (runTrace tr).outstanding.length ≤ 1) ∧
    (runTrace [PEvent.domLoaded, PEvent.visShown]).outstanding = [0] ∧
    (pstep (runTrace [PEvent.domLoaded]) PEvent.visShown).2 = [Eff.abortCtl 0] := by
  refine ⟨?_, ?_, ?_, ?_⟩
  · intro w h
    simp [fetchStateStart, h]
  · intro tr
    exact (runTrace_PollInv tr).1
  · decide
  · decide

/-- C1 witness: the guard clause and the trace invariant at concrete
inputs. -/
theorem fetchState_at_most_one_in_flight_witness :
    fetchStateStart { pollerInit with inFlight := true }
        = ({ pollerInit with inFlight := true }, false, []) ∧
    (runTrace [PEvent.domLoaded, PEvent.visShown]).outstanding.length ≤ 1 :=
  ⟨fetchState_at_most_one_in_flight.1 _ rfl,
   fetchState_at_most_one_in_flight.2.1 _⟩

/-- C2: when the outstanding request settles with a network error or a
non-2xx HTTP status, the only effect is an error status-line message —
updateUIFromState is not invoked, so no applyUI effect reaches the view
and the prev cache is untouched — and the awaiting loop() continuation
still schedules the next fixed-interval timeout, so a failed tick never
terminates the polling loop. -/
theorem failed_poll_skips_ui_and_reschedules (w : PollerWorld) (g n : ℕ)
    (hg : g ∈ w.outstanding) (hl : w.loopAwaiting = true) :
    ((pstep w (PEvent.settle g FetchOutcome.networkError)).2
        = [Eff.statusMsg true] ∧
     (pstep w (PEvent.settle g FetchOutcome.networkError)).1.timerVar
        = some w.nextTimer ∧
     w.nextTimer ∈
       (pstep w (PEvent.settle g FetchOutcome.networkError)).1.pendingTimers) ∧
    ((pstep w (PEvent.settle g (FetchOutcome.httpError n))).2
        = [Eff.statusMsg true] ∧
     (pstep w (PEvent.settle g (FetchOutcome.httpError n))).1.timerVar
        = some w.nextTimer ∧
     w.nextTimer ∈
       (pstep w (PEvent.settle g (FetchOutcome.httpError n))).1.pendingTimers) := by
  unfold pstep settleStep
  simp [hg, hl, scheduleTimer, settleEffs]

/-- C2 witness: a concrete world with one in-flight request issued by the
loop. -/
theorem failed_poll_skips_ui_and_reschedules_witness :
    ((pstep { pollerInit with outstanding := [0], loopAwaiting := true }
        (PEvent.settle 0 FetchOutcome.networkError)).2 = [Eff.statusMsg true] ∧
     (pstep { pollerInit with outstanding := [0], loopAwaiting := true }
        (PEvent.settle 0 FetchOutcome.networkError)).1.timerVar = some 0 ∧
     (0 : ℕ) ∈ (pstep { pollerInit with outstanding := [0], loopAwaiting := true }
        (PEvent.settle 0 FetchOutcome.networkError)).1.pendingTimers) ∧
    ((pstep { pollerInit with outstanding := [0], loopAwaiting := true }
        (PEvent.settle 0 (FetchOutcome.httpError 500))).2 = [Eff.statusMsg true] ∧
     (pstep { pollerInit with outstanding := [0], loopAwaiting := true }
        (PEvent.settle 0 (FetchOutcome.httpError 500))).1.timerVar = some 0 ∧
     (0 : ℕ) ∈ (pstep { pollerInit with outstanding := [0], loopAwaiting := true }
        (PEvent.settle 0 (FetchOutcome.httpError 500))).1.pendingTimers) :=
  failed_poll_skips_ui_and_reschedules
    { pollerInit with outstanding := [0], loopAwaiting := true } 0 500
    (by decide) rfl

/-- C3 (code bug demonstration): DOMContentLoaded starts the poll loop
and issues request 0; hiding the page while that request is in flight
aborts it (abortCtl 0 is emitted) and the abort settles silently (no
status, no applyUI — the AbortError is swallowed).  But the suspended
loop() continuation still runs "timer = setTimeout(loop, ms)", so a
timeout remains scheduled while the page is hidden, and when it fires a
new network request (request 1) is issued with the page still hidden —
contradicting the claim that no further ticks are scheduled while
hidden. -/
theorem hidden_page_still_schedules_ticks :
    Eff.abortCtl 0 ∈ (pstep (runTrace [PEvent.domLoaded]) PEvent.visHidden).2 ∧
    (pstep (runTrace [PEvent.domLoaded, PEvent.visHidden])
        (PEvent.settle 0 FetchOutcome.aborted)).2 = [] ∧
    (runTrace [PEvent.domLoaded, PEvent.visHidden,
        PEvent.settle 0 FetchOutcome.aborted]).hidden = true ∧
    (runTrace [PEvent.domLoaded, PEvent.visHidden,
        PEvent.settle 0 FetchOutcome.aborted]).pendingTimers = [0] ∧
    (pstep (runTrace [PEvent.domLoaded, PEvent.visHidden,
        PEvent.settle 0 FetchOutcome.aborted]) (PEvent.timerFire 0)).2
      = [Eff.abortCtl 0, Eff.request 1] ∧
    (pstep (runTrace [PEvent.domLoaded, PEvent.visHidden,
        PEvent.settle 0 FetchOutcome.aborted]) (PEvent.timerFire 0)).1.hidden
      = true := by
  refine ⟨?_, ?_, ?_, ?_, ?_, ?_⟩ <;> decide

theorem updateUIFromState_RafInv (r : RafState) (s : DeviceState)
    (h : RafInv r) : RafInv (updateUIFromState r s) := by
  unfold RafInv at h ⊢
  unfold updateUIFromState
  by_cases hr : r.rafHandle
  · simp [hr]
    exact ⟨h.1, h.2.mp hr⟩
  · have h0 : r.scheduled = 0 := by
      rcases Nat.le_one_iff_eq_zero_or_eq_one.mp h.1 with h1 | h1
      · exact h1
      · exact absurd (h.2.mpr h1) hr
    simp [hr, h0]

theorem frameFire_RafInv (r : RafState) (h : RafInv r) :
    RafInv (frameFire r).1 := by
  unfold RafInv at h ⊢
  unfold frameFire
  by_cases h0 : r.scheduled = 0
  · simp [h0]
    have hne : ¬r.rafHandle = true := fun hc => by
      have h1 := h.2.mp hc
      omega
    simpa using hne
  · have h1 : r.scheduled = 1 :=
      (Nat.le_one_iff_eq_zero_or_eq_one.mp h.1).resolve_left h0
    cases hq : r.queued <;> simp [h0, hq, h1]

theorem rafStep_RafInv (r : RafState) (e : RafEvent) (h : RafInv r) :
    RafInv (rafStep r e).1 := by
  cases e with
  | upd s => exact updateUIFromState_RafInv r s h
  | frame => exact frameFire_RafInv r h

theorem runRaf_RafInv (tr : List RafEvent) : RafInv (runRaf tr) := by
  have hstep : ∀ (l : List RafEvent) (r : RafState), RafInv r →
      RafInv (l.foldl (fun r e => (rafStep r e).1) r) := by
    intro l
    induction l with
    | nil => intro r h; exact h
    | cons e rest ih => intro r h; exact ih _ (rafStep_RafInv r e h)
  exact hstep tr {} (by constructor <;> simp)

theorem applyUpds_state (l : List DeviceState) (r : RafState)
    (s : DeviceState) (h : RafInv r) (hl : l.getLast? = some s) :
    (applyUpds r l).queued = some s ∧ (applyUpds r l).rafHandle = true ∧
      (applyUpds r l).scheduled = 1 := by
  induction l generalizing r with
  | nil => cases hl
  | cons a rest ih =>
      cases rest with
      | nil =>
          simp at hl
          subst hl
          have heq : applyUpds r [a] = updateUIFromState r a := rfl
          rw [heq]
          unfold updateUIFromState
          by_cases hr : r.rafHandle = true
          · have h1 : r.scheduled = 1 := h.2.mp hr
            simp [hr, h1]
          · have h0 : r.scheduled = 0 := by
              rcases Nat.le_one_iff_eq_zero_or_eq_one.mp h.1 with h1 | h1
              · exact h1
              · exact absurd (h.2.mpr h1) hr
            simp [hr, h0]
      | cons b rest2 =>
          have hl2 : (b :: rest2).getLast? = some s := by
            simpa using hl
          have heq : applyUpds r (a :: b :: rest2) =
              applyUpds (updateUIFromState r a) (b :: rest2) := rfl
          rw [heq]
          exact ih _ (updateUIFromState_RafInv r a h) hl2

/-- C5: updateUIFromState never calls applyState synchronously (an upd
step emits no effects) and always leaves the queued slot holding the
snapshot just passed (last-value-wins); along any event trace at most one
requestAnimationFrame callback is scheduled; and when any nonempty burst
of snapshots arrives before the frame fires, the frame boundary makes
exactly one applyState call, with the most recent snapshot. -/
theorem updateUI_batched_last_value_wins :
    (∀ (r : RafState) (s : DeviceState),
        (rafStep r (RafEvent.upd s)).2 = [] ∧
        (rafStep r (RafEvent.upd s)).1.queued = some s) ∧
    (∀ tr : List RafEvent, (runRaf tr).scheduled ≤ 1) ∧
    (∀ (r : RafState) (l : List DeviceState) (s : DeviceState), RafInv r →
        l.getLast? = some s →
        (frameFire (applyUpds r l)).2 = [RafEff.applyCall s] ∧
        (frameFire (applyUpds r l)).1.queued = none) := by
  refine ⟨?_, ?_, ?_⟩
  · intro r s
    constructor
    · rfl
    · unfold rafStep updateUIFromState
      by_cases hr : r.rafHandle = true <;> simp [hr]
  · intro tr
    exact (runRaf_RafInv tr).1
  · intro r l s h hl
    obtain ⟨hq, _hh, hs⟩ := applyUpds_state l r s h hl
    unfold frameFire
    simp [hs, hq]

/-- C5 witness: two snapshots arrive before one frame; the frame applies
only the second. -/
theorem updateUI_batched_last_value_wins_witness :
    ((rafStep ({} : RafState) (RafEvent.upd statePollA)).2 = [] ∧
     (rafStep ({} : RafState) (RafEvent.upd statePollA)).1.queued
        = some statePollA) ∧
    (runRaf [RafEvent.upd statePollA, RafEvent.upd statePollB,
        RafEvent.frame]).scheduled ≤ 1 ∧
    ((frameFire (applyUpds {} [statePollA, statePollB])).2
        = [RafEff.applyCall statePollB] ∧
     (frameFire (applyUpds {} [statePollA, statePollB])).1.queued = none) :=
  ⟨updateUI_batched_last_value_wins.1 {} statePollA,
   updateUI_batched_last_value_wins.2.1 _,
   updateUI_batched_last_value_wins.2.2 {} [statePollA, statePollB]
     statePollB ⟨by simp, by simp⟩ rfl⟩

/-! ### roundTo lemmas and the number-widget invariant (C7, C10) -/
theorem roundTo_some (x : ℚ) (d : ℕ) :
    roundTo (some x) d
      = ((⌊(x + jsEps) * 10 ^ d + 1/2⌋ : ℤ) : ℚ) / 10 ^ d := rfl

theorem roundTo_mono (d : ℕ) (x y : ℚ) (h : x ≤ y) :
    roundTo (some x) d ≤ roundTo (some y) d := by
  rw [roundTo_some, roundTo_some]
  have hf : (0 : ℚ) < 10 ^ d := by positivity
  have hfl : ⌊(x + jsEps) * 10 ^ d + 1/2⌋ ≤ ⌊(y + jsEps) * 10 ^ d + 1/2⌋ := by
    apply Int.floor_mono
    have hmul : (x + jsEps) * 10 ^ d ≤ (y + jsEps) * 10 ^ d := by
      apply mul_le_mul_of_nonneg_right _ (le_of_lt hf)
      linarith
    linarith
  have hcast : ((⌊(x + jsEps) * 10 ^ d + 1/2⌋ : ℤ) : ℚ)
      ≤ ((⌊(y + jsEps) * 10 ^ d + 1/2⌋ : ℤ) : ℚ) := by
    exact_mod_cast hfl
  gcongr

theorem roundTo_idem (x : ℚ) (d : ℕ) (hd : (10 : ℚ) ^ d * jsEps < 1/2) :
    roundTo (some (roundTo (some x) d)) d = roundTo (some x) d := by
  have hf : (0 : ℚ) < 10 ^ d := by positivity
  rw [roundTo_some x d, roundTo_some]
  have harg : (((⌊(x + jsEps) * 10 ^ d + 1/2⌋ : ℤ) : ℚ) / 10 ^ d + jsEps)
        * 10 ^ d + 1/2
      = ((⌊(x + jsEps) * 10 ^ d + 1/2⌋ : ℤ) : ℚ)
        + (jsEps * 10 ^ d + 1/2) := by
    field_simp
    ring
  rw [harg]
  have hd2 : jsEps * 10 ^ d < 1/2 := by
    rw [mul_comm]
    exact hd
  have heps : (0 : ℚ) ≤ jsEps * 10 ^ d := by
    have : (0 : ℚ) < jsEps := by norm_num [jsEps]
    positivity
  have h0 : ⌊jsEps * 10 ^ d + 1/2⌋ = 0 := by
    apply Int.floor_eq_zero_iff.mpr
    rw [Set.mem_Ico]
    constructor
    · linarith
    · linarith
  rw [Int.floor_int_add, h0, add_zero]

/-- The value after one click: clamp into [m, mx] then round; under
bounds that are fixed points of rounding at the field precision, the
result stays in [m, mx] and is itself a fixed point. -/
theorem roundClamp_spec (p : ℕ) (m mx c : ℚ) (hmm : m ≤ mx)
    (hfm : roundTo (some m) p = m) (hfM : roundTo (some mx) p = mx)
    (hd : (10 : ℚ) ^ p * jsEps < 1/2) :
    m ≤ roundTo (some (roundTo (some (if (if c < m then m else c) > mx
        then mx else (if c < m then m else c))) p)) p ∧
    roundTo (some (roundTo (some (if (if c < m then m else c) > mx
        then mx else (if c < m then m else c))) p)) p ≤ mx ∧
    roundTo (some (roundTo (some (roundTo (some (if (if c < m then m else c) > mx
        then mx else (if c < m then m else c))) p)) p)) p
      = roundTo (some (roundTo (some (if (if c < m then m else c) > mx
        then mx else (if c < m then m else c))) p)) p := by
  set c2 := if c < m then m else c with hc2
  set c3 := if c2 > mx then mx else c2 with hc3
  have hl : m ≤ c3 := by
    rw [hc3]
    split
    · exact hmm
    · rw [hc2]
      split
      · exact le_refl m
      · next h => exact le_of_not_lt h
  have hr : c3 ≤ mx := by
    rw [hc3]
    split
    · exact le_refl mx
    · next h => exact le_of_not_lt h
  rw [roundTo_idem c3 p hd]
  refine ⟨?_, ?_, ?_⟩
  · calc m = roundTo (some m) p := hfm.symm
      _ ≤ roundTo (some c3) p := roundTo_mono p m c3 hl
  · calc roundTo (some c3) p ≤ roundTo (some mx) p := roundTo_mono p c3 mx hr
      _ = mx := hfM
  · exact roundTo_idem c3 p hd

theorem clickStep_spec (d : FieldDef) (m mx cur : ℚ) (plus : Bool)
    (hmin : d.min = some m) (hmax : d.max = some mx) (hmm : m ≤ mx)
    (hfm : roundTo (some m) (getNumberPrecision (some d)) = m)
    (hfM : roundTo (some mx) (getNumberPrecision (some d)) = mx)
    (hd : (10 : ℚ) ^ getNumberPrecision (some d) * jsEps < 1/2) :
    m ≤ clickStep d plus cur ∧ clickStep d plus cur ≤ mx ∧
      roundTo (some (clickStep d plus cur)) (getNumberPrecision (some d))
        = clickStep d plus cur := by
  have hck : clickStep d plus cur
      = roundTo (some (roundTo (some
          (if (if (if plus then cur + stepVal d else cur - stepVal d) < m
                then m else (if plus then cur + stepVal d else cur - stepVal d))
              > mx
            then mx
            else (if (if plus then cur + stepVal d else cur - stepVal d) < m
                then m
                else (if plus then cur + stepVal d else cur - stepVal d))))
          (getNumberPrecision (some d)))) (getNumberPrecision (some d)) := by
    simp only [clickStep, hmin, hmax]
  obtain ⟨h1, h2, h3⟩ := roundClamp_spec (getNumberPrecision (some d)) m mx
    (if plus then cur + stepVal d else cur - stepVal d) hmm hfm hfM hd
  rw [hck]
  exact ⟨h1, h2, h3⟩

/-- C7 counterexample: (a) renderField initialization does not clamp: a
server value 100 on a number field with max 80 is stored as 100 in the
Draft; (b) after a plus click, clamping to a max that is not
representable at the field precision (79.99 at precision 1) rounds up to
80.0, above max — so the claimed [min, max] invariant fails at both
initialization and clicks as stated. -/
theorem number_field_invariant_cex :
    (renderFieldStoredValue fieldNoClamp (some (JVal.num 100))
        = some (JVal.num 100) ∧
      fieldNoClamp.max = some 80 ∧ ¬(100 : ℚ) ≤ 80) ∧
    (clickStep fieldMaxNotRepresentable true 79.8 = 80 ∧
      fieldMaxNotRepresentable.max = some 79.99 ∧ ¬(80 : ℚ) ≤ 79.99) := by
  refine ⟨⟨by decide, rfl, by decide⟩, ⟨by decide, rfl, by decide⟩⟩

/-- C7 amended: renderField initialization stores the server (or default)
value rounded to the field precision but does not clamp it into
[min, max]; every decrement/increment click stores
roundTo(clamp(old ± step)), so whenever the declared min and max are
themselves fixed points of rounding at the field precision (and the
precision is small enough that 10^p · Number.EPSILON < 1/2), the Draft
value after any click lies within [min, max] and equals its own rounding;
in particular, with min 10, max 80, step 0.5, repeatedly incrementing
from 79.8 never yields a value above 80.0. -/
theorem number_field_clamp_round_amended :
    (∀ (d : FieldDef) (m mx cur : ℚ) (plus : Bool),
        d.min = some m → d.max = some mx → m ≤ mx →
        roundTo (some m) (getNumberPrecision (some d)) = m →
        roundTo (some mx) (getNumberPrecision (some d)) = mx →
        (10 : ℚ) ^ getNumberPrecision (some d) * jsEps < 1/2 →
        m ≤ clickStep d plus cur ∧ clickStep d plus cur ≤ mx ∧
          roundTo (some (clickStep d plus cur)) (getNumberPrecision (some d))
            = clickStep d plus cur) ∧
    (∀ n : ℕ, plusIter n ≤ 80) ∧
    renderFieldStoredValue fieldNoClamp (some (JVal.num 100))
      = some (JVal.num 100) := by
  refine ⟨clickStep_spec, ?_, by decide⟩
  intro n
  induction n with
  | zero => decide
  | succ k _ih =>
      have h := clickStep_spec fieldClamp 10 80 (plusIter k) true rfl rfl
        (by decide) (by decide) (by decide) (by decide)
      exact h.2.1

/-- C7 witness: one increment from 79.8 on the min 10 / max 80 / step 0.5
field stays within bounds and rounded. -/
theorem number_field_clamp_round_amended_witness :
    10 ≤ clickStep fieldClamp true 79.8 ∧ clickStep fieldClamp true 79.8 ≤ 80 ∧
      roundTo (some (clickStep fieldClamp true 79.8))
          (getNumberPrecision (some fieldClamp))
        = clickStep fieldClamp true 79.8 :=
  number_field_clamp_round_amended.1 fieldClamp 10 80 79.8 true rfl rfl
    (by decide) (by decide) (by decide) (by decide)

/-- C10: when the server value is undefined or null, renderField stores a
deterministic Draft entry: the declared default when present (rounded to
the field precision for number fields); otherwise for a number field the
declared min (or 0 when absent) rounded to the precision; otherwise for a
text field with a non-empty options list, the first option. -/
theorem renderField_default_init (d : FieldDef) (raw : Option JVal)
    (hraw : raw = none ∨ raw = some JVal.null) :
    (∀ dq : ℚ, d.dflt = some (JVal.num dq) → d.type = "number" →
        (10 : ℚ) ^ getNumberPrecision (some d) * jsEps < 1/2 →
        renderFieldStoredValue d raw
          = some (JVal.num (roundTo (some dq) (getNumberPrecision (some d))))) ∧
    (d.dflt = none → d.type = "number" →
        (10 : ℚ) ^ getNumberPrecision (some d) * jsEps < 1/2 →
        renderFieldStoredValue d raw
          = some (JVal.num (roundTo (some (d.min.getD 0))
              (getNumberPrecision (some d))))) ∧
    (∀ ds : String, d.dflt = some (JVal.str ds) → d.type = "text" →
        renderFieldStoredValue d raw = some (JVal.str ds)) ∧
    (∀ (o : String) (os : List String), d.dflt = none → d.type = "text" →
        jsOptions d = some (o :: os) →
        renderFieldStoredValue d raw = some (JVal.str o)) := by
  refine ⟨?_, ?_, ?_, ?_⟩
  · intro dq hdflt htype hd
    rcases hraw with h | h <;> subst h <;>
      simp [renderFieldStoredValue, renderFieldInitValue, hdflt, htype,
        jsToNum, jsNum0, roundTo_idem _ _ hd]
  · intro hdflt htype hd
    rcases hraw with h | h <;> subst h <;>
      cases hm : d.min <;>
        simp [renderFieldStoredValue, renderFieldInitValue, hdflt, htype, hm,
          jsToNum, jsNum0, roundTo_idem _ _ hd]
  · intro ds hdflt htype
    rcases hraw with h | h <;> subst h <;>
      simp [renderFieldStoredValue, renderFieldInitValue, hdflt, htype]
  · intro o os hdflt htype hopt
    rcases hraw with h | h <;> subst h <;>
      simp [renderFieldStoredValue, renderFieldInitValue, hdflt, htype, hopt]

/-- C10 witness: default 63 at precision 1 stores 63.0; min 10 without a
default stores 10.0; a text field with options stores "OFF"; a text field
with a declared default stores it. -/
theorem renderField_default_init_witness :
    renderFieldStoredValue fieldWithDefault none
      = some (JVal.num (roundTo (some 63)
          (getNumberPrecision (some fieldWithDefault)))) ∧
    renderFieldStoredValue fieldWithMin none
      = some (JVal.num (roundTo (some (fieldWithMin.min.getD 0))
          (getNumberPrecision (some fieldWithMin)))) ∧
    renderFieldStoredValue fieldTextOptions (some JVal.null)
      = some (JVal.str "OFF") ∧
    renderFieldStoredValue fieldTextDefault none = some (JVal.str "PL") :=
  ⟨(renderField_default_init fieldWithDefault none (Or.inl rfl)).1 63 rfl rfl
      (by decide),
   (renderField_default_init fieldWithMin none (Or.inl rfl)).2.1 rfl rfl
      (by decide),
   (renderField_default_init fieldTextOptions (some JVal.null)
      (Or.inr rfl)).2.2.2 "OFF" ["IGNITION", "WORK", "MANUAL"] rfl rfl rfl,
   (renderField_default_init fieldTextDefault none (Or.inl rfl)).2.2.1 "PL"
      rfl rfl⟩

/-! ### Module-store lemmas and the load/save contracts (C8, C9) -/
theorem lookupA_upsertA_self {α : Type} (l : List (String × α)) (k : String)
    (v : α) : lookupA (upsertA l k v) k = some v := by
  induction l with
  | nil => simp [upsertA, lookupA]
  | cons p rest ih =>
      by_cases h : p.1 = k <;> simp [upsertA, lookupA, h, ih]

theorem lookupA_upsertA_ne {α : Type} (l : List (String × α)) (k k2 : String)
    (v : α) (h : k2 ≠ k) : lookupA (upsertA l k v) k2 = lookupA l k2 := by
  have h2 : ¬k = k2 := fun he => h he.symm
  induction l with
  | nil => simp [upsertA, lookupA, h2]
  | cons p rest ih =>
      by_cases h1 : p.1 = k
      · simp [upsertA, lookupA, h1, h2]
      · simp [upsertA, lookupA, h1, ih]

theorem loadModule_ok_self (st : CfgSt) (mid : String) (schema : Schema)
    (values : List (String × JVal)) :
    lookupA (loadModule st mid (LoadResult.ok schema values)).schemaCache mid
      = some schema ∧
    lookupA (loadModule st mid (LoadResult.ok schema values)).configState mid
      = some (renderModuleDraft schema values (draftOfValues values)) ∧
    lookupA (loadModule st mid (LoadResult.ok schema values)).panels mid
      = some (panelOf schema) := by
  simp [loadModule, lookupA_upsertA_self]

theorem loadModule_err_self (st : CfgSt) (mid : String) (msg : String) :
    lookupA (loadModule st mid (LoadResult.err msg)).panels mid
      = some (Panel.errorMsg msg) ∧
    lookupA (loadModule st mid (LoadResult.err msg)).schemaCache mid
      = lookupA st.schemaCache mid ∧
    lookupA (loadModule st mid (LoadResult.err msg)).configState mid
      = lookupA st.configState mid := by
  simp [loadModule, lookupA_upsertA_self]

theorem loadModule_lookup_ne (st : CfgSt) (mid : String) (r : LoadResult)
    (mid2 : String) (h : mid2 ≠ mid) :
    lookupA (loadModule st mid r).schemaCache mid2
      = lookupA st.schemaCache mid2 ∧
    lookupA (loadModule st mid r).configState mid2
      = lookupA st.configState mid2 ∧
    lookupA (loadModule st mid r).panels mid2 = lookupA st.panels mid2 := by
  cases r <;> simp [loadModule, lookupA_upsertA_ne _ _ _ _ h]

theorem initLoads_cons (st : CfgSt) (a : String) (rest : List String)
    (res : String → LoadResult) :
    initLoads st (a :: rest) res = initLoads (loadModule st a (res a)) rest res
    := rfl

theorem initLoads_lookup_notMem (mods : List String)
    (res : String → LoadResult) (mid : String) (h : mid ∉ mods)
    (st : CfgSt) :
    lookupA (initLoads st mods res).schemaCache mid
      = lookupA st.schemaCache mid ∧
    lookupA (initLoads st mods res).configState mid
      = lookupA st.configState mid ∧
    lookupA (initLoads st mods res).panels mid = lookupA st.panels mid := by
  induction mods generalizing st with
  | nil => exact ⟨rfl, rfl, rfl⟩
  | cons a rest ih =>
      have hne : mid ≠ a := fun he => h (he ▸ List.mem_cons_self a rest)
      have hrest : mid ∉ rest := fun hr => h (List.mem_cons_of_mem a hr)
      have hstep := loadModule_lookup_ne st a (res a) mid hne
      obtain ⟨i1, i2, i3⟩ := ih hrest (loadModule st a (res a))
      rw [initLoads_cons]
      exact ⟨i1.trans hstep.1, i2.trans hstep.2.1, i3.trans hstep.2.2⟩

theorem initLoads_lookup_mem (mods : List String)
    (res : String → LoadResult) (mid : String) (hnd : mods.Nodup)
    (hmem : mid ∈ mods) (st : CfgSt) :
    (∀ schema values, res mid = LoadResult.ok schema values →
        lookupA (initLoads st mods res).schemaCache mid = some schema ∧
        lookupA (initLoads st mods res).configState mid
          = some (renderModuleDraft schema values (draftOfValues values)) ∧
        lookupA (initLoads st mods res).panels mid = some (panelOf schema)) ∧
    (∀ msg, res mid = LoadResult.err msg →
        lookupA (initLoads st mods res).panels mid
          = some (Panel.errorMsg msg) ∧
        lookupA (initLoads st mods res).schemaCache mid
          = lookupA st.schemaCache mid ∧
        lookupA (initLoads st mods res).configState mid
          = lookupA st.configState mid) := by
  induction mods generalizing st with
  | nil => cases hmem
  | cons a rest ih =>
      rcases List.mem_cons.mp hmem with heq | hmem2
      · subst heq
        have hnotin : mid ∉ rest := (List.nodup_cons.mp hnd).1
        have hrest := initLoads_lookup_notMem rest res mid hnotin
          (loadModule st mid (res mid))
        rw [initLoads_cons]
        constructor
        · intro schema values hres
          obtain ⟨o1, o2, o3⟩ := loadModule_ok_self st mid schema values
          rw [hres] at hrest ⊢
          exact ⟨hrest.1.trans o1, hrest.2.1.trans o2, hrest.2.2.trans o3⟩
        · intro msg hres
          obtain ⟨e1, e2, e3⟩ := loadModule_err_self st mid msg
          rw [hres] at hrest ⊢
          exact ⟨hrest.2.2.trans e1, hrest.1.trans e2, hrest.2.1.trans e3⟩
      · have hnd2 : rest.Nodup := (List.nodup_cons.mp hnd).2
        have hane : mid ≠ a := fun he =>
          (List.nodup_cons.mp hnd).1 (he ▸ hmem2)
        have hlm := loadModule_lookup_ne st a (res a) mid hane
        obtain ⟨ihok, iherr⟩ := ih hnd2 hmem2 (loadModule st a (res a))
        rw [initLoads_cons]
        constructor
        · exact ihok
        · intro msg hres
          obtain ⟨p1, p2, p3⟩ := iherr msg hres
          exact ⟨p1, p2.trans hlm.1, p3.trans hlm.2.1⟩

/-- C9: in the initConfigUI load loop over distinct module ids, every
module load executes regardless of failures in other modules: a module
whose schema+values fetch succeeded ends with its schema cached, its
Draft populated by renderField from the server values, and its widget
panel rendered; a module whose fetch failed ends with only an inline
error in its own panel and nothing cached — independent of the outcomes
of the other modules. -/
theorem initConfigUI_module_isolation (mods : List String)
    (res : String → LoadResult) (mid : String) (hnd : mods.Nodup)
    (hmem : mid ∈ mods) :
    (∀ schema values, res mid = LoadResult.ok schema values →
        lookupA (initLoads {} mods res).schemaCache mid = some schema ∧
        lookupA (initLoads {} mods res).configState mid
          = some (renderModuleDraft schema values (draftOfValues values)) ∧
        lookupA (initLoads {} mods res).panels mid = some (panelOf schema)) ∧
    (∀ msg, res mid = LoadResult.err msg →
        lookupA (initLoads {} mods res).panels mid
          = some (Panel.errorMsg msg) ∧
        lookupA (initLoads {} mods res).schemaCache mid = none ∧
        lookupA (initLoads {} mods res).configState mid = none) := by
  obtain ⟨hok, herr⟩ := initLoads_lookup_mem mods res mid hnd hmem {}
  exact ⟨hok, fun msg hres => herr msg hres⟩

/-- C9 witness: with modules [A, B], A succeeding and B failing, A keeps
its schema, Draft and widgets while B shows only the inline error. -/
theorem initConfigUI_module_isolation_witness :
    lookupA (initLoads {} ["A", "B"] loadResWitness).schemaCache "A"
      = some schemaWitnessA ∧
    lookupA (initLoads {} ["A", "B"] loadResWitness).configState "A"
      = some (renderModuleDraft schemaWitnessA valuesWitnessA
          (draftOfValues valuesWitnessA)) ∧
    lookupA (initLoads {} ["A", "B"] loadResWitness).panels "A"
      = some (panelOf schemaWitnessA) ∧
    lookupA (initLoads {} ["A", "B"] loadResWitness).panels "B"
      = some (Panel.errorMsg "HTTP 500") ∧
    lookupA (initLoads {} ["A", "B"] loadResWitness).schemaCache "B" = none :=
  ⟨((initConfigUI_module_isolation ["A", "B"] loadResWitness "A" (by decide)
      (by decide)).1 schemaWitnessA valuesWitnessA rfl).1,
   ((initConfigUI_module_isolation ["A", "B"] loadResWitness "A" (by decide)
      (by decide)).1 schemaWitnessA valuesWitnessA rfl).2.1,
   ((initConfigUI_module_isolation ["A", "B"] loadResWitness "A" (by decide)
      (by decide)).1 schemaWitnessA valuesWitnessA rfl).2.2,
   ((initConfigUI_module_isolation ["A", "B"] loadResWitness "B" (by decide)
      (by decide)).2 "HTTP 500" rfl).1,
   ((initConfigUI_module_isolation ["A", "B"] loadResWitness "B" (by decide)
      (by decide)).2 "HTTP 500" rfl).2.1⟩

/-- C8: saveModuleConfig disables the save button first and re-enables it
last (and only there), submits the entire module Draft in one PUT, on
success wholesale-replaces the Draft with the returned mapping and
re-renders the panel from those server values (when the module schema is
cached), and on failure leaves the whole store untouched and shows an
error status. -/
theorem saveModuleConfig_contract (st : CfgSt) (mid : String)
    (outcome : SaveOutcome) :
    (saveModuleConfig st mid outcome).2.head? = some SaveEff.btnDisabled ∧
    (saveModuleConfig st mid outcome).2.getLast? = some SaveEff.btnEnabled ∧
    SaveEff.btnEnabled ∉ (saveModuleConfig st mid outcome).2.dropLast ∧
    SaveEff.putRequest ((lookupA st.configState mid).getD [])
      ∈ (saveModuleConfig st mid outcome).2 ∧
    (∀ saved schema, outcome = SaveOutcome.ok saved →
        lookupA st.schemaCache mid = some schema →
        lookupA (saveModuleConfig st mid outcome).1.configState mid
          = some (renderModuleDraft schema saved (draftOfValues saved)) ∧
        SaveEff.rerender schema saved ∈ (saveModuleConfig st mid outcome).2) ∧
    (∀ msg, outcome = SaveOutcome.fail msg →
        (saveModuleConfig st mid outcome).1 = st ∧
        SaveEff.statusSaveError msg ∈ (saveModuleConfig st mid outcome).2)
    := by
  cases outcome with
  | ok saved =>
      cases hsc : lookupA st.schemaCache mid with
      | some schema =>
          refine ⟨?_, ?_, ?_, ?_, ?_, ?_⟩
          · simp [saveModuleConfig, hsc]
          · simp [saveModuleConfig, hsc]
          · simp [saveModuleConfig, hsc]
          · simp [saveModuleConfig, hsc]
          · intro saved2 schema2 hres hsc2
            cases hres
            obtain rfl : schema = schema2 := Option.some.inj hsc2
            constructor
            · simp [saveModuleConfig, hsc, lookupA_upsertA_self]
            · simp [saveModuleConfig, hsc]
          · intro msg hres
            cases hres
      | none =>
          refine ⟨?_, ?_, ?_, ?_, ?_, ?_⟩
          · simp [saveModuleConfig, hsc]
          · simp [saveModuleConfig, hsc]
          · simp [saveModuleConfig, hsc]
          · simp [saveModuleConfig, hsc]
          · intro saved2 schema2 hres hsc2
            cases hres
            simp at hsc2
          · intro msg hres
            cases hres
  | fail msg =>
      refine ⟨?_, ?_, ?_, ?_, ?_, ?_⟩
      · simp [saveModuleConfig]
      · simp [saveModuleConfig]
      · simp [saveModuleConfig]
      · simp [saveModuleConfig]
      · intro saved2 schema2 hres hsc2
        cases hres
      · intro msg2 hres
        cases hres
        exact ⟨rfl, by simp [saveModuleConfig]⟩

/-- C8 witness: a successful save on the concrete store, and a failed
save leaving it untouched. -/
theorem saveModuleConfig_contract_witness :
    (saveModuleConfig saveWitnessSt "m1"
        (SaveOutcome.ok saveWitnessSaved)).2.head? = some SaveEff.btnDisabled ∧
    lookupA (saveModuleConfig saveWitnessSt "m1"
        (SaveOutcome.ok saveWitnessSaved)).1.configState "m1"
      = some (renderModuleDraft schemaWitnessA saveWitnessSaved
          (draftOfValues saveWitnessSaved)) ∧
    SaveEff.rerender schemaWitnessA saveWitnessSaved
      ∈ (saveModuleConfig saveWitnessSt "m1"
          (SaveOutcome.ok saveWitnessSaved)).2 ∧
    (saveModuleConfig saveWitnessSt "m1" (SaveOutcome.fail "HTTP 422")).1
      = saveWitnessSt :=
  ⟨(saveModuleConfig_contract saveWitnessSt "m1"
      (SaveOutcome.ok saveWitnessSaved)).1,
   ((saveModuleConfig_contract saveWitnessSt "m1"
      (SaveOutcome.ok saveWitnessSaved)).2.2.2.2.1 saveWitnessSaved
      schemaWitnessA rfl rfl).1,
   ((saveModuleConfig_contract saveWitnessSt "m1"
      (SaveOutcome.ok saveWitnessSaved)).2.2.2.2.1 saveWitnessSaved
      schemaWitnessA rfl rfl).2,
   ((saveModuleConfig_contract saveWitnessSt "m1"
      (SaveOutcome.fail "HTTP 422")).2.2.2.2.2 "HTTP 422" rfl).1⟩

end Furnace
